import Mathlib

/-!
Verification development for the DD1750 BOM-extraction-and-layout pipeline.

The repository carries two parallel implementations of the pipeline:
`dd1750_core.py` (structured-table extraction first, used by the web layer)
and `main.py` (text-line extraction first, with a table fallback).  Both are
embedded below as executable Lean functions over an abstract PDF document
model: a document is a list of pages; a page carries the tables that
pdfplumber extract_tables would return (a table is a list of rows, a row a
list of cell strings; a None cell and an empty cell are both modelled as "",
which is exactly how the Python code treats them, since every access is
guarded by truthiness) and the text that extract_text would return (with the
source fallback of "" for None already applied, as both files write
`page.extract_text() or ""`).

All string primitives used by the sources (strip, upper, split, substring
containment, the regular expressions) are implemented here structurally over
character lists so that every definition evaluates inside the kernel.
-/

/-- Python whitespace for strip, split and the regex class backslash-s (ASCII). -/
def pyIsWsChar (c : Char) : Bool :=
  c = ' ' || c = '\t' || c = '\n' || c = '\r' || c = '\x0b' || c = '\x0c'

/-- Python word character for word-boundary matching: letters, digits and underscore. -/
def isWordChar (c : Char) : Bool := c.isAlphanum || c = '_'

/-- Python str.strip. -/
def pyStrip (s : String) : String :=
  String.mk (((s.data.dropWhile pyIsWsChar).reverse.dropWhile pyIsWsChar).reverse)

/-- Python str.upper (ASCII). -/
def pyUpper (s : String) : String := String.mk (s.data.map Char.toUpper)

/-- Python slicing s[:n] (by code points, as Python slices strings). -/
def pyTake (n : Nat) (s : String) : String := String.mk (s.data.take n)

def isPrefixChars : List Char → List Char → Bool
  | [], _ => true
  | _ :: _, [] => false
  | a :: as, b :: bs => a == b && isPrefixChars as bs

def containsChars (needle : List Char) : List Char → Bool
  | [] => isPrefixChars needle []
  | c :: cs => isPrefixChars needle (c :: cs) || containsChars needle cs

/-- Python substring containment, `needle in hay`. -/
def pyIn (needle hay : String) : Bool := containsChars needle.data hay.data

/-- Python str.split with no argument: split on whitespace runs, dropping
empty pieces.  Fuel-driven (fuel bounds the number of loop steps; it is
always called with the length of the input, which suffices because every
step consumes at least one character). -/
def splitWsGo : Nat → List Char → List (List Char)
  | 0, _ => []
  | _ + 1, [] => []
  | n + 1, c :: cs =>
    if pyIsWsChar c then splitWsGo n cs
    else (c :: cs.takeWhile (fun d => !pyIsWsChar d)) ::
      splitWsGo n (cs.dropWhile (fun d => !pyIsWsChar d))

def pySplitWs (s : String) : List String := (splitWsGo s.data.length s.data).map String.mk

/-- Python single-space join of a token list. -/
def joinSp : List String → String
  | [] => ""
  | x :: xs => xs.foldl (fun acc y => acc ++ " " ++ y) x

/-- The whitespace normalisation both files repeat:
`re.sub` of one-or-more whitespace to a single space, then strip. -/
def collapseWs (s : String) : String := joinSp (pySplitWs s)

/-- Python `s.split(sep)[0]` for a one-character separator:
the prefix before the first occurrence (the whole string if absent). -/
def beforeFirst (sep : Char) (s : String) : String :=
  String.mk (s.data.takeWhile (fun c => c != sep))

/-- Splitting on a literal newline, Python `text.split(chr(10))`
(keeps empty pieces; the empty string yields one empty piece). -/
def splitNlGo : Nat → List Char → List (List Char)
  | 0, _ => [[]]
  | _ + 1, [] => [[]]
  | n + 1, c :: cs =>
    if c = '\n' then [] :: splitNlGo n cs
    else
      match splitNlGo n cs with
      | [] => [[c]]
      | l :: ls => (c :: l) :: ls

/-- Maximal word-character runs of a string, in order; the regex engine can
only place a word boundary at the two ends of such a run, so a word-bounded
pattern matches exactly the runs that satisfy it. -/
def wordRunsGo : Nat → List Char → List (List Char)
  | 0, _ => []
  | _ + 1, [] => []
  | n + 1, c :: cs =>
    if isWordChar c then
      (c :: cs.takeWhile isWordChar) :: wordRunsGo n (cs.dropWhile isWordChar)
    else wordRunsGo n cs

def wordRuns (s : String) : List String := (wordRunsGo s.data.length s.data).map String.mk

/-- The regex search for a word-bounded run of exactly nine digits
(a ten-digit run has no interior word boundary, so it does not match):
the first maximal word run that is exactly nine digits. -/
def findNsn9 (s : String) : Option String :=
  (wordRuns s).find? (fun r => r.data.length == 9 && r.data.all Char.isDigit)

/-- The anchored regex match for exactly nine digits spanning the whole string. -/
def isNsn9 (s : String) : Bool := s.data.length == 9 && s.data.all Char.isDigit

/-- Python str.isdigit (ASCII digits, nonempty). -/
def pyIsDigit (s : String) : Bool := !s.data.isEmpty && s.data.all Char.isDigit

def digitsToNat (cs : List Char) : Nat := cs.foldl (fun acc c => acc * 10 + (c.toNat - 48)) 0

/-- Python int(s): optional sign, one or more digits, surrounding whitespace
allowed; none models the ValueError that the callers catch. -/
def pyToInt (s : String) : Option Int :=
  match (pyStrip s).data with
  | [] => none
  | '-' :: ds =>
    if !ds.isEmpty && ds.all Char.isDigit then some (-(digitsToNat ds : Int)) else none
  | '+' :: ds =>
    if !ds.isEmpty && ds.all Char.isDigit then some ((digitsToNat ds : Int)) else none
  | ds => if ds.all Char.isDigit then some ((digitsToNat ds : Int)) else none

/-- Generic left-to-right non-overlapping removal scanner for `re.sub` with a
pattern matcher that, on success, returns the characters remaining after the
match (always consuming at least one character); unmatched characters are kept. -/
def scanRemove (tryM : List Char → Option (List Char)) : Nat → List Char → List Char
  | 0, _ => []
  | _ + 1, [] => []
  | n + 1, c :: cs =>
    match tryM (c :: cs) with
    | some rest => scanRemove tryM n rest
    | none => c :: scanRemove tryM n cs

/-- Delete every maximal word run satisfying p, keeping all separator
characters: the effect of `re.sub` with a word-bounded alternation pattern.
The source pattern for the warranty-code removal ends in a lazy dot-star and
an optional digit-star, both of which always succeed on the empty string, so
only the word itself is ever removed. -/
def removeRunsGo (p : List Char → Bool) : Nat → List Char → List Char
  | 0, _ => []
  | _ + 1, [] => []
  | n + 1, c :: cs =>
    if isWordChar c then
      (if p (c :: cs.takeWhile isWordChar) then [] else c :: cs.takeWhile isWordChar) ++
        removeRunsGo p n (cs.dropWhile isWordChar)
    else c :: removeRunsGo p n cs

def removeWordRuns (p : String → Bool) (s : String) : String :=
  String.mk (removeRunsGo (fun run => p (String.mk run)) s.data.length s.data)

def isUpperDigit (c : Char) : Bool := c.isUpper || c.isDigit

/-- Head matcher for the material-id pattern `C underscore, a run of capitals
or digits, optional whitespace, a tilde, optional whitespace, another run`. -/
def matchCUnderTilde : List Char → Option (List Char)
  | 'C' :: '_' :: rest =>
    if (rest.takeWhile isUpperDigit).isEmpty then none
    else
      match (rest.dropWhile isUpperDigit).dropWhile pyIsWsChar with
      | '~' :: r3 =>
        if ((r3.dropWhile pyIsWsChar).takeWhile isUpperDigit).isEmpty then none
        else some ((r3.dropWhile pyIsWsChar).dropWhile isUpperDigit)
      | _ => none
  | _ => none

/-- Head matcher for the COEI code pattern: the literal COEI, a dash, digits. -/
def matchCoei : List Char → Option (List Char)
  | 'C' :: 'O' :: 'E' :: 'I' :: '-' :: rest =>
    if (rest.takeWhile Char.isDigit).isEmpty then none
    else some (rest.dropWhile Char.isDigit)
  | _ => none

def denylistClean : List String := ["WTY", "ARC", "CIIC", "UI", "SCMC"]
def denylistCodes : List String := ["WTY", "ARC", "CIIC", "UI", "SCMC", "EA", "AY", "9K", "9G"]

def strMem (s : String) (l : List String) : Bool := l.any (fun w => s == w)

/-- The trailing-punctuation removal in the main-file description cleaner:
drop a maximal trailing run of comma, dash or colon together with any
whitespace after it (the regex requires at least one punctuation character). -/
def dropTrailingPunct (s : String) : String :=
  if ((s.data.reverse.dropWhile pyIsWsChar).takeWhile
        (fun c => c = ',' || c = '-' || c = ':')).isEmpty then s
  else
    String.mk
      (((s.data.reverse.dropWhile pyIsWsChar).dropWhile
          (fun c => c = ',' || c = '-' || c = ':')).reverse)

/-- One extracted line item; the BomItem dataclass is identical in both files
(main.py names the stock-number field nsn as well).  Quantities are Python
ints, hence Int here: the sources parse them without a sign or range check. -/
structure BomItem where
  line_no : Nat
  description : String
  nsn : String
  qty : Int
deriving DecidableEq, Repr

/-- One PDF page as the sources observe it through pdfplumber. -/
structure PdfPage where
  tables : List (List (List String))
  text : String
deriving DecidableEq, Repr

structure PdfDoc where
  pages : List PdfPage
deriving DecidableEq, Repr

/-- The only way either extractor grows its result list:
append a fresh item numbered one past the current length. -/
def appendItem (items : List BomItem) (d n : String) (q : Int) : List BomItem :=
  items ++ [⟨items.length + 1, d, n, q⟩]

/-- The line preparation both text scanners share: split the page text on
newlines, strip each line, keep the nonempty ones. -/
def pageLines (text : String) : List String :=
  (((splitNlGo text.data.length text.data).map String.mk).map pyStrip).filter
    (fun l => l != "")

/-- Column-role indices found in a table header (the col_indices dict of
dd1750_core; a later matching header cell overwrites an earlier one, exactly
as repeated dict assignment does).  Matching is case-insensitive substring
containment after stripping, in the elif order of the source. -/
structure ColIdx where
  lv : Option Nat := none
  desc : Option Nat := none
  material : Option Nat := none
  qty : Option Nat := none
deriving DecidableEq, Repr

def headerCols (header : List String) : ColIdx :=
  header.enum.foldl
    (fun ci (p : Nat × String) =>
      if p.2 ≠ "" then
        if pyIn "LV" (pyUpper (pyStrip p.2)) || pyIn "LEVEL" (pyUpper (pyStrip p.2)) then
          { ci with lv := some p.1 }
        else if pyIn "DESCRIPTION" (pyUpper (pyStrip p.2)) then
          { ci with desc := some p.1 }
        else if pyIn "MATERIAL" (pyUpper (pyStrip p.2)) then
          { ci with material := some p.1 }
        else if pyIn "QTY" (pyUpper (pyStrip p.2)) || pyIn "QUANTITY" (pyUpper (pyStrip p.2)) then
          { ci with qty := some p.1 }
        else ci
      else ci)
    {}

/-- The level test of dd1750_core: the lv column is known, the row is long
enough, the cell is truthy, and the stripped upper-cased cell is exactly B. -/
def coreIsB (ci : ColIdx) (row : List String) : Bool :=
  match ci.lv with
  | some l =>
    decide (l < row.length) &&
      (row.getD l "" != "" && pyUpper (pyStrip (row.getD l "")) == "B")
  | none => false

/-- The description-cleaning block dd1750_core repeats three times: cut at the
first colon and strip, cut at the first opening parenthesis and strip, then
collapse whitespace; each cut is guarded by a containment test as in the source. -/
def cleanColonParen (s : String) : String :=
  collapseWs
    (if pyIn "("
        (if pyIn ":" s then pyStrip (beforeFirst ':' s) else s) then
      pyStrip (beforeFirst '('
        (if pyIn ":" s then pyStrip (beforeFirst ':' s) else s))
    else (if pyIn ":" s then pyStrip (beforeFirst ':' s) else s))

def coreDesc (ci : ColIdx) (row : List String) : String :=
  match ci.desc with
  | some d =>
    if d < row.length then
      if row.getD d "" ≠ "" then cleanColonParen (pyStrip (row.getD d "")) else ""
    else ""
  | none => ""

def coreNsn (ci : ColIdx) (row : List String) : String :=
  match ci.material with
  | some m =>
    if m < row.length then
      if row.getD m "" ≠ "" then (findNsn9 (pyStrip (row.getD m ""))).getD "" else ""
    else ""
  | none => ""

def coreQty (ci : ColIdx) (row : List String) : Int :=
  match ci.qty with
  | some q =>
    if q < row.length then
      if row.getD q "" ≠ "" then (pyToInt (pyStrip (row.getD q ""))).getD 1 else 1
    else 1
  | none => 1

/-- One data row of a recognised table in dd1750_core extract_items_from_pdf:
skip fully-empty rows, keep only level-B rows, and append only when the
cleaned description is nonempty (truncated to 100 characters). -/
def coreRow (ci : ColIdx) (items : List BomItem) (row : List String) : List BomItem :=
  if row.all (fun c => c == "") then items
  else if coreIsB ci row then
    if coreDesc ci row ≠ "" then
      appendItem items (pyTake 100 (coreDesc ci row)) (coreNsn ci row) (coreQty ci row)
    else items
  else items

/-- One table: skipped when it has fewer than two rows, otherwise the header
fixes the column roles and every following row is processed. -/
def coreTable (items : List BomItem) (table : List (List String)) : List BomItem :=
  if table.length < 2 then items
  else (table.drop 1).foldl (coreRow (headerCols (table.headD []))) items

/-- The anchored fallback pattern of dd1750_core: nine digits, whitespace, the
letter B, whitespace, a nonempty remainder; returns the digits and the
captured remainder.  The remainder capture is greedy after the whitespace,
with the one backtracking case (only whitespace after B) reproduced. -/
def matchNsnB (line : String) : Option (String × String) :=
  if (line.data.take 9).length == 9 && (line.data.take 9).all Char.isDigit then
    if ((line.data.drop 9).takeWhile pyIsWsChar).isEmpty then none
    else
      match (line.data.drop 9).dropWhile pyIsWsChar with
      | 'B' :: r3 =>
        if (r3.takeWhile pyIsWsChar).isEmpty then none
        else if !(r3.dropWhile pyIsWsChar).isEmpty then
          some (String.mk (line.data.take 9), String.mk (r3.dropWhile pyIsWsChar))
        else if 2 ≤ (r3.takeWhile pyIsWsChar).length then
          some (String.mk (line.data.take 9),
            String.mk ((r3.takeWhile pyIsWsChar).drop ((r3.takeWhile pyIsWsChar).length - 1)))
        else none
      | _ => none
  else none

/-- The trailing-quantity extraction both files repeat: when the description
is truthy and its last whitespace token is all digits, that token becomes the
quantity and is removed from the description. -/
def trailingQty (d : String) : String × Int :=
  if d != "" && pyIsDigit ((pySplitWs d).getLastD "") then
    (joinSp (pySplitWs d).dropLast, (pyToInt ((pySplitWs d).getLastD "")).getD 1)
  else (d, 1)

/-- Stock number for the second fallback pattern of dd1750_core: the token
before the B marker when it is nine digits, otherwise the first nine-digit
word run found in the window of lines from three before to two after. -/
def coreP2nsn (lines : List String) (i : Nat) (parts : List String) : String :=
  if (if (parts.findIdx (fun p => p == "B")) != 0 &&
        isNsn9 (parts.getD ((parts.findIdx (fun p => p == "B")) - 1) "") then
       parts.getD ((parts.findIdx (fun p => p == "B")) - 1) ""
      else "") == "" then
    (((List.range' (i - 3) (min lines.length (i + 3) - (i - 3))).findSome?
        (fun j => findNsn9 (lines.getD j ""))).getD "")
  else
    parts.getD ((parts.findIdx (fun p => p == "B")) - 1) ""

/-- Description for the second fallback pattern: the tokens after the first B
marker, joined and cleaned. -/
def coreP2desc (parts : List String) : String :=
  cleanColonParen (joinSp (parts.drop ((parts.findIdx (fun p => p == "B")) + 1)))

/-- One line of the raw-text fallback of dd1750_core: the anchored
nine-digits-B pattern first, otherwise the B-with-comma pattern. -/
def coreTextLine (lines : List String) (i : Nat) (items : List BomItem) : List BomItem :=
  match matchNsnB (lines.getD i "") with
  | some (nsn, rest) =>
    if (trailingQty (cleanColonParen rest)).1 ≠ "" then
      appendItem items (pyTake 100 (trailingQty (cleanColonParen rest)).1) nsn
        (trailingQty (cleanColonParen rest)).2
    else items
  | none =>
    if pyIn " B " (lines.getD i "") && pyIn "," (lines.getD i "") then
      if (pySplitWs (lines.getD i "")).contains "B" then
        if (trailingQty (coreP2desc (pySplitWs (lines.getD i "")))).1 ≠ "" then
          appendItem items
            (pyTake 100 (trailingQty (coreP2desc (pySplitWs (lines.getD i "")))).1)
            (coreP2nsn lines i (pySplitWs (lines.getD i "")))
            (trailingQty (coreP2desc (pySplitWs (lines.getD i "")))).2
        else items
      else items
    else items

/-- The while loop over the page lines, carrying the running index. -/
def coreTextScan (lines : List String) : Nat → List String → List BomItem → List BomItem
  | _, [], items => items
  | i, _ :: rest, items => coreTextScan lines (i + 1) rest (coreTextLine lines i items)

/-- One page of dd1750_core extract_items_from_pdf: structured tables first;
then, only when the accumulated global result is still empty, the raw-text
scan of this page (the source guards the fallback with the whole items list,
not with a per-page count). -/
def corePage (items : List BomItem) (page : PdfPage) : List BomItem :=
  if page.tables.foldl coreTable items = [] then
    coreTextScan (pageLines page.text) 0 (pageLines page.text)
      (page.tables.foldl coreTable items)
  else page.tables.foldl coreTable items

/-- dd1750_core extract_items_from_pdf on an already-opened document. -/
def coreExtract (doc : PdfDoc) (startPage : Nat) : List BomItem :=
  (doc.pages.drop startPage).foldl corePage []

/-- dd1750_core extract_items_from_pdf including its surrounding try-except:
a failure to open or parse the PDF produces the empty list. -/
def coreExtractOpen : Except String PdfDoc → Nat → List BomItem
  | Except.error _, _ => []
  | Except.ok doc, s => coreExtract doc s

/-- The description cleaner of main.py.  The warranty-word pattern removes
word-bounded occurrences of the five codes case-insensitively (its trailing
lazy dot-star and optional digit-star always match the empty string, so only
the word itself is removed); then the material-id and COEI patterns are cut
out; then word-bounded digit runs of six or more characters are dropped; then
whitespace is collapsed, a trailing comma, dash or colon run is removed, and
the result is truncated to 117 characters plus an ellipsis when longer
than 120. -/
def cleanDescription (text : String) : String :=
  if text = "" then ""
  else
    let t1 := removeWordRuns (fun r => strMem (pyUpper r) denylistClean) text
    let t2 := String.mk (scanRemove matchCUnderTilde t1.data.length t1.data)
    let t3 := String.mk (scanRemove matchCoei t2.data.length t2.data)
    let t4 := removeWordRuns
      (fun r => decide (6 ≤ r.data.length) && r.data.all Char.isDigit) t3
    let t5 := collapseWs t4
    let t6 := dropTrailingPunct t5
    if 120 < t6.length then pyTake 117 t6 ++ "..." else t6

/-- Mutable scanning state of the per-page loop in main.py
extract_items_from_pdf.  Python appends the same BomItem object to the list
without always resetting the current-item variable, and later assigns its
nsn field in place; curCount records how many trailing elements of items are
aliases of cur so that such an in-place update is reproduced on them. -/
structure MState where
  items : List BomItem
  cur : Option BomItem
  curCount : Nat
  pending : Option String
deriving DecidableEq, Repr

/-- In-place nsn assignment on the current item followed by an append: the
trailing aliased copies in the list change with it. -/
def msSetNsnAppend (st : MState) (a : BomItem) (n : String) : MState :=
  { items := st.items.take (st.items.length - st.curCount) ++
      List.replicate st.curCount { a with nsn := n } ++ [{ a with nsn := n }],
    cur := some { a with nsn := n },
    curCount := st.curCount + 1,
    pending := none }

/-- The flush at the start of a matched item line: a pending stock number is
assigned to the current item before it is appended; without one the current
item is appended as is; with no current item nothing happens (and a pending
stock number is kept). -/
def msFlush (st : MState) : MState :=
  match st.cur with
  | some a =>
    match st.pending with
    | some n => msSetNsnAppend st a n
    | none => { st with items := st.items ++ [a], curCount := st.curCount + 1 }
  | none => st

def mainKeywords : List String := ["ASSEMBLY", "CABLE", "CONNECTOR", "SWITCH"]

/-- The anchored match for a leading level marker: first character A or B,
second character whitespace. -/
def matchABws (line : String) : Bool :=
  match line.data with
  | c0 :: c1 :: _ => (c0 == 'A' || c0 == 'B') && pyIsWsChar c1
  | _ => false

/-- One line of the main.py text scanner.  An item line (level marker or one
of the hard-coded keywords) flushes the previous item and, when it has at
least three whitespace tokens, starts a new current item from the tokens
after the first two, cleaned and with a trailing quantity split off; a line
of exactly nine digits, or any line containing a word-bounded nine-digit
run, records a pending stock number for the next flush. -/
def mainLine (st : MState) (line : String) : MState :=
  if matchABws line || mainKeywords.any (fun k => pyIn k (pyUpper line)) then
    if 3 ≤ (pySplitWs line).length then
      { msFlush st with
        cur := some
          ⟨(msFlush st).items.length + 1,
            (trailingQty (cleanDescription
              (removeWordRuns (fun r => strMem (pyUpper r) denylistCodes)
                (joinSp ((pySplitWs line).drop 2))))).1,
            "",
            (trailingQty (cleanDescription
              (removeWordRuns (fun r => strMem (pyUpper r) denylistCodes)
                (joinSp ((pySplitWs line).drop 2))))).2⟩,
        curCount := 0 }
    else msFlush st
  else if isNsn9 line then { st with pending := some line }
  else
    match findNsn9 line with
    | some n => { st with pending := some n }
    | none => st

/-- The end-of-page flush of the last current item. -/
def msFinish (st : MState) : List BomItem :=
  match st.cur with
  | some a =>
    match st.pending with
    | some n =>
      st.items.take (st.items.length - st.curCount) ++
        List.replicate st.curCount { a with nsn := n } ++ [{ a with nsn := n }]
    | none => st.items ++ [a]
  | none => st.items

/-- One page of main.py extract_items_from_pdf (the text pass). -/
def mainPage (items : List BomItem) (page : PdfPage) : List BomItem :=
  msFinish ((pageLines page.text).foldl mainLine ⟨items, none, 0, none⟩)

/-- One cell of the table fallback of main.py: a stripped cell longer than
ten characters that contains a letter and is neither a nine-digit number,
nor a bare A or B level marker, nor one of the code words becomes the
description; a nine-digit cell becomes the stock number; an all-digit cell
between 1 and 100 becomes the quantity; later cells overwrite earlier ones. -/
def mainCellFold (acc : String × String × Int) (cell : String) : String × String × Int :=
  if cell == "" then acc
  else
    if decide (10 < (pyStrip cell).data.length) &&
        (pyStrip cell).data.any Char.isAlpha &&
        !isNsn9 (pyStrip cell) &&
        !(pyStrip cell == "A" || pyStrip cell == "B") &&
        !strMem (pyUpper (pyStrip cell)) denylistCodes then
      (cleanDescription (pyStrip cell), acc.2.1, acc.2.2)
    else if isNsn9 (pyStrip cell) then (acc.1, pyStrip cell, acc.2.2)
    else if pyIsDigit (pyStrip cell) &&
        decide (1 ≤ (pyToInt (pyStrip cell)).getD 0) &&
        decide ((pyToInt (pyStrip cell)).getD 0 ≤ 100) then
      (acc.1, acc.2.1, (pyToInt (pyStrip cell)).getD 1)
    else acc

/-- One data row of the table fallback: defaults empty description, empty
stock number, quantity one; an item is appended only for a nonempty
description (with no level filter and no length truncation beyond the
cleaner itself). -/
def mainTableRow (items : List BomItem) (row : List String) : List BomItem :=
  if (row.foldl mainCellFold ("", "", 1)).1 ≠ "" then
    appendItem items (row.foldl mainCellFold ("", "", 1)).1
      (row.foldl mainCellFold ("", "", 1)).2.1
      (row.foldl mainCellFold ("", "", 1)).2.2
  else items

/-- The table fallback of main.py (a second pass over the document). -/
def mainTables (doc : PdfDoc) (startPage : Nat) : List BomItem :=
  (doc.pages.drop startPage).foldl
    (fun items page =>
      page.tables.foldl
        (fun items table =>
          if table.length < 2 then items
          else
            table.enum.foldl
              (fun items (p : Nat × List String) =>
                if p.1 == 0 then items else mainTableRow items p.2)
              items)
        items)
    []

/-- main.py extract_items_from_pdf on an already-opened document: the text
pass over all pages, then the table fallback when it found nothing at all. -/
def mainExtractDoc (doc : PdfDoc) (startPage : Nat) : List BomItem :=
  if ((doc.pages.drop startPage).foldl mainPage []).length == 0 then
    mainTables doc startPage
  else (doc.pages.drop startPage).foldl mainPage []

/-- main.py extract_items_from_pdf has no try-except: a failure to open the
PDF propagates to the caller instead of producing an empty list. -/
def mainExtractOpen : Except String PdfDoc → Nat → Except String (List BomItem)
  | Except.error e, _ => Except.error e
  | Except.ok doc, s => Except.ok (mainExtractDoc doc s)

/-- Rows per output page, fixed by the DD1750 form grid in both files. -/
def ROWS_PER_PAGE : Nat := 18

/-- The pagination both generate_dd1750_from_pdf variants perform:
ceil of the item count over eighteen pages, page p holding the slice from
p times eighteen to the next multiple (clipped at the end). -/
def paginateCore (items : List BomItem) : List (List BomItem) :=
  (List.range ((items.length + ROWS_PER_PAGE - 1) / ROWS_PER_PAGE)).map
    (fun p => (items.drop (p * ROWS_PER_PAGE)).take ROWS_PER_PAGE)

/-- The text the dd1750_core renderer draws on one table row: the box number,
the description capped at fifty characters (forty-seven plus an ellipsis when
longer), the stock-number sub-line when present, the literal EA unit, the
quantity, the literal 0 spares and the total equal to the quantity. -/
structure DrawnRow where
  box : String
  desc : String
  nsnLine : Option String
  uoi : String
  initQty : String
  spares : String
  total : String
deriving DecidableEq, Repr

def drawRow (it : BomItem) : DrawnRow :=
  { box := toString it.line_no
    desc :=
      if 50 < it.description.length then pyTake 47 it.description ++ "..."
      else it.description
    nsnLine := if it.nsn ≠ "" then some ("NSN: " ++ it.nsn) else none
    uoi := "EA"
    initQty := toString it.qty
    spares := "0"
    total := toString it.qty }

/-- dd1750_core generate_dd1750_from_pdf after extraction.  A template page is
modelled by an opaque content string; every output page is built from the
first template page (the source re-reads page zero for each output page).
Zero items yield one untouched copy of the first template page and the count
zero.  A template with no pages makes even the last-resort fallback read of
page zero fail, so that error surfaces. -/
def generateDD (items : List BomItem) (template : List String) :
    Except String (List (String × List DrawnRow) × Nat) :=
  match template with
  | [] => Except.error "template has no pages"
  | t0 :: _ =>
    if items = [] then Except.ok ([(t0, [])], 0)
    else
      Except.ok
        ((paginateCore items).map (fun ch => (t0, ch.map drawRow)), items.length)

/-- main.py generate_dd1750_from_pdf after extraction; its overlay drawing
depends on real font metrics (greedy word wrap by glyph widths), so a page
overlay is abstracted to the chunk of items it renders.  The empty-items
branch and the pagination are identical to the dd1750_core variant. -/
def generateMainDD (items : List BomItem) (template : List String) :
    Except String (List (String × List BomItem) × Nat) :=
  match template with
  | [] => Except.error "template has no pages"
  | t0 :: _ =>
    if items = [] then Except.ok ([(t0, [])], 0)
    else Except.ok ((paginateCore items).map (fun ch => (t0, ch)), items.length)

/-- The composed dd1750_core pipeline: extract, then render. -/
def generateCoreFromDoc (doc : PdfDoc) (startPage : Nat) (template : List String) :
    Except String (List (String × List DrawnRow) × Nat) :=
  generateDD (coreExtract doc startPage) template

/-- The composed main.py pipeline: extract, then render. -/
def generateMainFromDoc (doc : PdfDoc) (startPage : Nat) (template : List String) :
    Except String (List (String × List BomItem) × Nat) :=
  generateMainDD (mainExtractDoc doc startPage) template

/-- The single-table scenario fixed by the spec: header LV, Description,
Material, Auth Qty and one data row whose description cell stacks a part
name, a nomenclature line with a parenthetical, and a warranty code on three
visual lines. -/
def c1Doc : PdfDoc :=
  ⟨[⟨[[["LV", "Description", "Material", "Auth Qty"],
       ["B", "Cable Assembly\nCONNECTOR, ELECTRICAL (WP)\nWTY", "123456789", "4"]]],
     ""⟩]⟩

/-- A one-table document whose quantity cell is the digit zero. -/
def c3Doc : PdfDoc :=
  ⟨[⟨[[["LV", "DESCRIPTION", "MATERIAL", "QTY"],
       ["B", "WIDGET", "", "0"]]],
     ""⟩]⟩

/-- A document with no tables whose page text holds an item line with three
tokens followed by a keyword line with a single token: main.py appends the
same current item twice (once at the keyword line, once at the page end). -/
def c4Doc : PdfDoc := ⟨[⟨[], "B CABLE THING\nCABLE"⟩]⟩

/-- A one-table document whose only data row has level A, not B, together
with a long description cell. -/
def c6Doc : PdfDoc :=
  ⟨[⟨[[["LV", "DESCRIPTION", "MATERIAL", "QTY"],
       ["A", "LONG DESCRIPTION TEXT", "", ""]]],
     ""⟩]⟩

/-- First page for the fallback-scope counterexample: a table that yields one
item. -/
def c7Page1 : PdfPage :=
  ⟨[[["LV", "DESCRIPTION", "MATERIAL", "QTY"],
     ["B", "WIDGET ONE", "123456789", "2"]]],
   ""⟩

/-- Second page for the fallback-scope counterexample: no tables, but page
text matching the anchored nine-digits-B fallback pattern. -/
def c7Page2 : PdfPage := ⟨[], "987654321 B GADGET, TWO 3"⟩

def c7DocA : PdfDoc := ⟨[c7Page1, c7Page2]⟩

def c7DocB : PdfDoc := ⟨[c7Page2]⟩

/-- A document both extractors map to the empty item list: its only data row
has level A and a description cell of at most ten characters. -/
def c8Doc : PdfDoc :=
  ⟨[⟨[[["LV", "DESCRIPTION", "MATERIAL", "QTY"],
       ["A", "SHORT", "", ""]]],
     ""⟩]⟩

/-- Thirty-seven valid items for the pagination scenario. -/
def items37 : List BomItem :=
  (List.range 37).map (fun i => ⟨i + 1, "ITEM", "", 1⟩)

/-- A nonempty accumulator for the fallback-scope witness. -/
def c7ItemsW : List BomItem := [⟨1, "EXISTING", "", 1⟩]

/-- An item whose description exceeds fifty characters, for the drawn-text
cap witness. -/
def c10Item : BomItem :=
  ⟨1, "CABLE ASSEMBLY, SPECIAL PURPOSE, ELECTRICAL, BRANCHED, EXTRA LONG", "123456789", 2⟩

/-- Well-formedness of extracted descriptions: nonempty and at most one
hundred characters. -/
def DescOk (items : List BomItem) : Prop :=
  ∀ it ∈ items, it.description ≠ "" ∧ it.description.length ≤ 100

/-- Line numbers are exactly one up to the length, in order. -/
def LineNosOk (items : List BomItem) : Prop :=
  items.map BomItem.line_no = List.range' 1 items.length

/-- A predicate preserved by every append site of the dd1750_core extractor:
all three sites append the hundred-character truncation of a description that
was checked nonempty. -/
def AppendInv (P : List BomItem → Prop) : Prop :=
  ∀ (items : List BomItem) (d n : String) (q : Int),
    d ≠ "" → P items → P (appendItem items (pyTake 100 d) n q)

theorem foldl_preserve {α β : Type _} (P : α → Prop) (f : α → β → α)
    (hf : ∀ a b, P a → P (f a b)) :
    ∀ (l : List β) (a : α), P a → P (l.foldl f a) := by
  intro l
  induction l with
  | nil => exact fun a ha => ha
  | cons x xs ih => exact fun a ha => ih (f a x) (hf a x ha)

theorem emptyStr_eq : ("" : String) = String.mk [] := rfl

theorem strMk_eq_empty_iff (l : List Char) : String.mk l = "" ↔ l = [] := by
  constructor
  · intro h
    exact congrArg String.data h
  · intro h
    rw [h]

theorem pyTake_ne_empty (d : String) (h : d ≠ "") : pyTake 100 d ≠ "" := by
  unfold pyTake
  intro ht
  apply h
  have hl : d.data.take 100 = [] := (strMk_eq_empty_iff _).mp ht
  rcases List.take_eq_nil_iff.mp hl with h100 | hd
  · exact absurd h100 (by omega)
  · exact (strMk_eq_empty_iff d.data).mpr hd

theorem pyTake_length_le (n : Nat) (s : String) : (pyTake n s).length ≤ n := by
  show (s.data.take n).length ≤ n
  simp [List.length_take]

theorem descOk_append : AppendInv DescOk := by
  intro items d n q hd h it hit
  simp only [appendItem] at hit
  rcases List.mem_append.mp hit with h1 | h2
  · exact h it h1
  · have he : it = ⟨items.length + 1, pyTake 100 d, n, q⟩ := by simpa using h2
    subst he
    exact ⟨pyTake_ne_empty d hd, pyTake_length_le 100 d⟩

theorem lineNosOk_append : AppendInv LineNosOk := by
  intro items d n q hd h
  unfold LineNosOk at h ⊢
  simp only [appendItem, List.map_append, List.length_append, List.map_cons,
    List.map_nil, List.length_cons, List.length_nil, List.length_singleton]
  rw [h, List.range'_1_concat]
  simp [Nat.add_comm]

theorem coreRow_preserve (P : List BomItem → Prop) (hP : AppendInv P)
    (ci : ColIdx) (items : List BomItem) (row : List String) (h : P items) :
    P (coreRow ci items row) := by
  unfold coreRow
  split_ifs with h1 h2 h3
  · exact h
  · exact hP items _ _ _ h3 h
  · exact h
  · exact h

theorem coreTable_preserve (P : List BomItem → Prop) (hP : AppendInv P)
    (items : List BomItem) (table : List (List String)) (h : P items) :
    P (coreTable items table) := by
  unfold coreTable
  split_ifs with h1
  · exact h
  · exact foldl_preserve P _ (fun a b ha => coreRow_preserve P hP _ a b ha) _ items h

theorem coreTextLine_preserve (P : List BomItem → Prop) (hP : AppendInv P)
    (lines : List String) (i : Nat) (items : List BomItem) (h : P items) :
    P (coreTextLine lines i items) := by
  unfold coreTextLine
  split
  · split_ifs with h1
    · exact hP items _ _ _ h1 h
    · exact h
  · split_ifs with h1 h2 h3
    · exact hP items _ _ _ h3 h
    · exact h
    · exact h
    · exact h

theorem coreTextScan_preserve (P : List BomItem → Prop) (hP : AppendInv P)
    (lines : List String) :
    ∀ (rest : List String) (i : Nat) (items : List BomItem),
      P items → P (coreTextScan lines i rest items) := by
  intro rest
  induction rest with
  | nil => intro i items h; exact h
  | cons x xs ih =>
    intro i items h
    exact ih (i + 1) (coreTextLine lines i items) (coreTextLine_preserve P hP lines i items h)

theorem corePage_preserve (P : List BomItem → Prop) (hP : AppendInv P)
    (items : List BomItem) (page : PdfPage) (h : P items) :
    P (corePage items page) := by
  have h1 : P (page.tables.foldl coreTable items) :=
    foldl_preserve P coreTable (fun a b ha => coreTable_preserve P hP a b ha)
      page.tables items h
  unfold corePage
  split_ifs with h2
  · exact coreTextScan_preserve P hP _ _ _ _ h1
  · exact h1

theorem coreExtract_preserve (P : List BomItem → Prop) (hP : AppendInv P)
    (h0 : P []) (doc : PdfDoc) (s : Nat) : P (coreExtract doc s) :=
  foldl_preserve P corePage (fun a b ha => corePage_preserve P hP a b ha)
    (doc.pages.drop s) [] h0

theorem drop_chunk_shift (l : List BomItem) (p : Nat) :
    (l.drop ((p + 1) * 18)).take 18 = ((l.drop 18).drop (p * 18)).take 18 := by
  rw [List.drop_drop, show 18 + p * 18 = (p + 1) * 18 from by omega]

theorem chunks_join (n : Nat) :
    ∀ l : List BomItem,
      ((List.range n).map (fun p => (l.drop (p * 18)).take 18)).flatten = l.take (n * 18) := by
  induction n with
  | zero => intro l; simp
  | succ m ih =>
    intro l
    have hmap : (List.range (m + 1)).map (fun p => (l.drop (p * 18)).take 18)
        = l.take 18 ::
          (List.range m).map (fun p => ((l.drop 18).drop (p * 18)).take 18) := by
      rw [List.range_succ_eq_map]
      simp only [List.map_cons, List.map_map]
      refine congrArg₂ List.cons (by simp) ?_
      refine List.map_congr_left ?_
      intro p hp
      exact drop_chunk_shift l p
    rw [hmap, List.flatten_cons, ih (l.drop 18),
      show (m + 1) * 18 = 18 + m * 18 from by omega, List.take_add]

theorem length_le_ceil_mul (N : Nat) : N ≤ ((N + 18 - 1) / 18) * 18 := by
  have h := Nat.div_add_mod (N + 18 - 1) 18
  have h2 : (N + 18 - 1) % 18 < 18 := Nat.mod_lt _ (by omega)
  omega

theorem paginate_join (items : List BomItem) : (paginateCore items).flatten = items := by
  simp only [paginateCore, ROWS_PER_PAGE]
  rw [chunks_join]
  exact List.take_of_length_le (length_le_ceil_mul items.length)

theorem paginate_length (items : List BomItem) :
    (paginateCore items).length = (items.length + 17) / 18 := by
  simp only [paginateCore, ROWS_PER_PAGE, List.length_map, List.length_range]
  omega

theorem paginate_chunk_le (items : List BomItem) :
    ∀ ch ∈ paginateCore items, ch.length ≤ 18 := by
  intro ch hch
  simp only [paginateCore, ROWS_PER_PAGE, List.mem_map] at hch
  obtain ⟨p, hp, rfl⟩ := hch
  simp only [List.length_take]
  omega

theorem paginate_last (items : List BomItem) (h : items ≠ []) :
    ((paginateCore items).getLastD []).length =
      if items.length % 18 = 0 then 18 else items.length % 18 := by
  have hN : 0 < items.length := List.length_pos.mpr h
  obtain ⟨m, hm⟩ : ∃ m, (items.length + 18 - 1) / 18 = m + 1 :=
    ⟨(items.length + 18 - 1) / 18 - 1, by omega⟩
  simp only [paginateCore, ROWS_PER_PAGE]
  rw [hm, List.range_succ, List.map_append, List.map_cons, List.map_nil,
    List.getLastD_concat]
  simp only [List.length_take, List.length_drop]
  rw [Nat.min_def]
  split_ifs <;> omega

/-- Claim C1, counterexample.  On the single-table scenario the dd1750_core
extractor does not select the second line of the multi-line description cell:
the whole cell is kept, truncated at the first opening parenthesis and
whitespace-collapsed, so the description is Cable Assembly CONNECTOR,
ELECTRICAL rather than CONNECTOR, ELECTRICAL. -/
theorem c1_scenario_counterexample :
    (coreExtract c1Doc 0).map BomItem.description =
      ["Cable Assembly CONNECTOR, ELECTRICAL"] ∧
    coreExtract c1Doc 0 ≠ [⟨1, "CONNECTOR, ELECTRICAL", "123456789", 4⟩] :=
  ⟨by decide, by decide⟩

/-- Claim C1, amended: on the single-table scenario extract_items_from_pdf of
dd1750_core returns exactly one item whose description is the whole cell with
the parenthetical and everything after it dropped and whitespace collapsed,
with stock number 123456789 and quantity 4. -/
theorem c1_scenario_amended :
    coreExtract c1Doc 0 =
      [⟨1, "Cable Assembly CONNECTOR, ELECTRICAL", "123456789", 4⟩] := by
  decide

/-- Claim C2, counterexample.  The main.py variant has no exception handler:
a failure while opening the PDF propagates instead of yielding the empty
sequence. -/
theorem c2_failure_counterexample :
    mainExtractOpen (Except.error "unreadable PDF") 0 =
      Except.error "unreadable PDF" ∧
    (Except.error "unreadable PDF" : Except String (List BomItem)) ≠ Except.ok [] :=
  ⟨rfl, fun hcontra => Except.noConfusion hcontra⟩

/-- Claim C2, amended: the dd1750_core extractor catches every open or parse
failure and returns the empty sequence (and is the identity embedding on a
successfully opened document), while the main.py variant propagates open
failures unchanged. -/
theorem c2_failure_semantics_amended (e : String) (s : Nat) (doc : PdfDoc) :
    coreExtractOpen (Except.error e) s = [] ∧
    coreExtractOpen (Except.ok doc) s = coreExtract doc s ∧
    mainExtractOpen (Except.error e) s = Except.error e :=
  ⟨rfl, rfl, rfl⟩

/-- Claim C3, counterexample.  A quantity cell holding the digit zero parses
to quantity zero, so items of extract_items_from_pdf do not always carry a
strictly positive quantity. -/
theorem c3_qty_counterexample :
    coreExtract c3Doc 0 = [⟨1, "WIDGET", "", 0⟩] ∧
    ((coreExtract c3Doc 0).all fun it => decide (0 < it.qty)) = false :=
  ⟨by decide, by decide⟩

/-- Claim C3, amended: every item returned by the dd1750_core
extract_items_from_pdf has a nonempty description of at most one hundred
characters; the quantity, however, is whatever integer the quantity cell
parses to (default one), and can be zero or negative. -/
theorem c3_item_wellformed_amended (doc : PdfDoc) (s : Nat) (it : BomItem)
    (h : it ∈ coreExtract doc s) :
    it.description ≠ "" ∧ it.description.length ≤ 100 :=
  coreExtract_preserve DescOk descOk_append
    (fun it hit => absurd hit (List.not_mem_nil it)) doc s it h

theorem c3_item_wellformed_witness :
    (⟨1, "WIDGET", "", 0⟩ : BomItem) ∈ coreExtract c3Doc 0 ∧
    ((⟨1, "WIDGET", "", 0⟩ : BomItem).description ≠ "" ∧
      (⟨1, "WIDGET", "", 0⟩ : BomItem).description.length ≤ 100) :=
  ⟨by decide, c3_item_wellformed_amended c3Doc 0 ⟨1, "WIDGET", "", 0⟩ (by decide)⟩

/-- Claim C4, counterexample.  The main.py extractor can append the same item
object twice (an item line with fewer than three tokens flushes the current
item without replacing it, and the end-of-page flush appends it again), so
its line numbers are not one up to the length. -/
theorem c4_line_no_counterexample :
    mainExtractDoc c4Doc 0 = [⟨1, "THING", "", 1⟩, ⟨1, "THING", "", 1⟩] ∧
    (mainExtractDoc c4Doc 0).map BomItem.line_no ≠
      List.range' 1 (mainExtractDoc c4Doc 0).length :=
  ⟨by decide, by decide⟩

/-- Claim C4, amended: for the dd1750_core extract_items_from_pdf the claim
holds as stated: over every document and start page, the line numbers of the
result are exactly one up to its length, in order, counted across the whole
document. -/
theorem c4_line_no_amended (doc : PdfDoc) (s : Nat) :
    (coreExtract doc s).map BomItem.line_no =
      List.range' 1 (coreExtract doc s).length :=
  coreExtract_preserve LineNosOk lineNosOk_append (by simp [LineNosOk]) doc s

/-- Claim C5: for every nonempty item list the renderer emits ceil of the
count over eighteen pages, each built from the first template page and a
chunk of at most eighteen items, the chunks concatenating back to the whole
list in order, and the last chunk holding the count modulo eighteen items
(or eighteen at a nonzero multiple). -/
theorem c5_pagination (items : List BomItem) (t0 : String) (ts : List String)
    (h : items ≠ []) :
    generateDD items (t0 :: ts) =
        Except.ok
          ((paginateCore items).map (fun ch => (t0, ch.map drawRow)), items.length) ∧
    (paginateCore items).length = (items.length + 17) / 18 ∧
    (paginateCore items).flatten = items ∧
    (∀ ch ∈ paginateCore items, ch.length ≤ 18) ∧
    ((paginateCore items).getLastD []).length =
      (if items.length % 18 = 0 then 18 else items.length % 18) := by
  refine ⟨?_, paginate_length items, paginate_join items,
    paginate_chunk_le items, paginate_last items h⟩
  simp [generateDD, h]

/-- Witness for C5 at the thirty-seven-item scenario: three pages of
eighteen, eighteen and one items. -/
theorem c5_pagination_witness :
    (paginateCore items37).length = (items37.length + 17) / 18 ∧
    (paginateCore items37).map List.length = [18, 18, 1] :=
  ⟨(c5_pagination items37 "TEMPLATE" [] (by decide)).2.1, by decide⟩

/-- Claim C6, counterexample.  The table fallback of main.py has no level
filter at all: a table whose only data row has level A still yields an item,
so, taken over both variants, a data row with a level other than B can be
emitted by table extraction. -/
theorem c6_level_counterexample :
    mainExtractDoc c6Doc 0 = [⟨1, "LONG DESCRIPTION TEXT", "", 1⟩] ∧
    coreExtract c6Doc 0 = [] :=
  ⟨by decide, by decide⟩

/-- Claim C6, amended: in the dd1750_core table extraction the claim holds:
a data row changes the result only when the level column is known, in range,
its cell truthy, and the stripped upper-cased cell is exactly B. -/
theorem c6_level_filter_amended (ci : ColIdx) (items : List BomItem)
    (row : List String) (h : coreRow ci items row ≠ items) :
    ∃ l, ci.lv = some l ∧ l < row.length ∧ row.getD l "" ≠ "" ∧
      pyUpper (pyStrip (row.getD l "")) = "B" := by
  unfold coreRow at h
  by_cases h1 : (row.all fun c => c == "") = true
  · rw [if_pos h1] at h
    exact absurd rfl h
  · rw [if_neg h1] at h
    by_cases h2 : coreIsB ci row = true
    · cases hlv : ci.lv with
      | none => simp [coreIsB, hlv] at h2
      | some l =>
        simp only [coreIsB, hlv, Bool.and_eq_true, decide_eq_true_eq,
          bne_iff_ne, ne_eq, beq_iff_eq] at h2
        exact ⟨l, rfl, h2.1, h2.2.1, h2.2.2⟩
    · rw [if_neg h2] at h
      exact absurd rfl h

theorem c6_level_filter_witness :
    coreRow ⟨some 0, some 1, none, none⟩ [] ["B", "GADGET ROW"] ≠ [] ∧
    (∃ l, (⟨some 0, some 1, none, none⟩ : ColIdx).lv = some l ∧
      l < (["B", "GADGET ROW"] : List String).length ∧
      (["B", "GADGET ROW"] : List String).getD l "" ≠ "" ∧
      pyUpper (pyStrip ((["B", "GADGET ROW"] : List String).getD l "")) = "B") :=
  ⟨by decide,
    c6_level_filter_amended ⟨some 0, some 1, none, none⟩ [] ["B", "GADGET ROW"]
      (by decide)⟩

/-- Claim C7, counterexample.  The fallback guard of dd1750_core tests the
whole accumulated item list, not the page: on a two-page document whose first
page yields a table item, the second page - whose tables yield nothing and
whose text alone does yield an item, as the second conjunct shows - is never
text-scanned, so the result carries no item from it. -/
theorem c7_fallback_counterexample :
    coreExtract c7DocA 0 = [⟨1, "WIDGET ONE", "123456789", 2⟩] ∧
    coreExtract c7DocB 0 = [⟨1, "GADGET, TWO", "987654321", 3⟩] :=
  ⟨by decide, by decide⟩

theorem coreRow_length_mono (ci : ColIdx) (items : List BomItem)
    (row : List String) : items.length ≤ (coreRow ci items row).length := by
  unfold coreRow
  split_ifs <;> simp [appendItem]

theorem coreTable_length_mono (items : List BomItem) (table : List (List String)) :
    items.length ≤ (coreTable items table).length := by
  unfold coreTable
  split_ifs with h1
  · exact Nat.le_refl _
  · exact foldl_preserve (fun l => items.length ≤ l.length) _
      (fun a b ha => Nat.le_trans ha (coreRow_length_mono _ a b)) _ items
      (Nat.le_refl _)

/-- Claim C7, amended: the raw-text fallback of dd1750_core runs on a page
only while the accumulated result of the whole run is still empty; as soon as
any item exists (from this or any earlier page) the page contributes exactly
its table items and its text is never scanned. -/
theorem c7_fallback_amended (items : List BomItem) (page : PdfPage)
    (h : items ≠ []) :
    corePage items page = page.tables.foldl coreTable items := by
  have hlen : 0 < items.length := List.length_pos.mpr h
  have hmono : 0 < (page.tables.foldl coreTable items).length :=
    foldl_preserve (fun l => 0 < l.length) coreTable
      (fun a b ha => Nat.lt_of_lt_of_le ha (coreTable_length_mono a b))
      page.tables items hlen
  have hne : page.tables.foldl coreTable items ≠ [] := List.length_pos.mp hmono
  unfold corePage
  rw [if_neg hne]

theorem c7_fallback_witness :
    c7ItemsW ≠ [] ∧
    corePage c7ItemsW c7Page2 = c7Page2.tables.foldl coreTable c7ItemsW :=
  ⟨by decide, c7_fallback_amended c7ItemsW c7Page2 (by decide)⟩

/-- Claim C8: when the extracted item list is empty, both generators write a
document consisting of one untouched copy of the first template page and
return count zero. -/
theorem c8_empty_items (doc : PdfDoc) (s : Nat) (t0 : String) (ts : List String)
    (hc : coreExtract doc s = []) (hm : mainExtractDoc doc s = []) :
    generateCoreFromDoc doc s (t0 :: ts) = Except.ok ([(t0, [])], 0) ∧
    generateMainFromDoc doc s (t0 :: ts) = Except.ok ([(t0, [])], 0) := by
  unfold generateCoreFromDoc generateMainFromDoc
  rw [hc, hm]
  exact ⟨by simp [generateDD], by simp [generateMainDD]⟩

theorem c8_empty_items_witness :
    coreExtract c8Doc 0 = [] ∧ mainExtractDoc c8Doc 0 = [] ∧
    generateCoreFromDoc c8Doc 0 ["TPL"] = Except.ok ([("TPL", [])], 0) ∧
    generateMainFromDoc c8Doc 0 ["TPL"] = Except.ok ([("TPL", [])], 0) := by
  have h := c8_empty_items c8Doc 0 "TPL" [] (by decide) (by decide)
  exact ⟨by decide, by decide, h.1, h.2⟩

/-- Claim C9, counterexample.  Already on the single-table spec scenario the
two extract_items_from_pdf variants return different sequences: main.py
keeps the parenthetical that dd1750_core cuts off. -/
theorem c9_equiv_counterexample :
    coreExtract c1Doc 0 =
      [⟨1, "Cable Assembly CONNECTOR, ELECTRICAL", "123456789", 4⟩] ∧
    mainExtractDoc c1Doc 0 =
      [⟨1, "Cable Assembly CONNECTOR, ELECTRICAL (WP)", "123456789", 4⟩] ∧
    mainExtractDoc c1Doc 0 ≠ coreExtract c1Doc 0 :=
  ⟨by decide, by decide, by decide⟩

/-- Claim C9, amended: the two variants implement different extraction
algorithms and can return different sequences for the same input; they do
agree on a document with no pages, where both return the empty sequence. -/
theorem c9_equiv_amended (s : Nat) :
    mainExtractDoc ⟨[]⟩ s = coreExtract ⟨[]⟩ s ∧ coreExtract ⟨[]⟩ s = [] := by
  constructor
  · simp [mainExtractDoc, mainTables, coreExtract, List.drop_nil]
  · simp [coreExtract, List.drop_nil]

/-- Claim C10: the description text drawn on a row by the dd1750_core
renderer is capped at fifty characters; a description longer than fifty is
drawn as its first forty-seven characters followed by an ellipsis. -/
theorem c10_desc_cap (it : BomItem) :
    (drawRow it).desc.length ≤ 50 ∧
    (50 < it.description.length →
      (drawRow it).desc = pyTake 47 it.description ++ "...") := by
  constructor
  · show (if 50 < it.description.length then pyTake 47 it.description ++ "..."
        else it.description).length ≤ 50
    split_ifs with h
    · rw [String.length_append]
      have h1 : (pyTake 47 it.description).length ≤ 47 := pyTake_length_le 47 it.description
      have h2 : ("..." : String).length = 3 := rfl
      omega
    · omega
  · intro h
    show (if 50 < it.description.length then pyTake 47 it.description ++ "..."
        else it.description) = _
    rw [if_pos h]

theorem c10_desc_cap_witness :
    (drawRow c10Item).desc.length ≤ 50 ∧
    50 < c10Item.description.length ∧
    (drawRow c10Item).desc = pyTake 47 c10Item.description ++ "..." :=
  ⟨(c10_desc_cap c10Item).1, by decide, (c10_desc_cap c10Item).2 (by decide)⟩
